import Mathlib

/-!
Verification of the wave-rover input-normalization core and serial command
layer against its specification.

The embedding follows `src/inputDeviceReader.py` and `src/rover.py`.
Python integers are modelled as `Int`; Python `dict` objects as insertion
ordered association lists; fallible code (Python exceptions such as
`UnboundLocalError` / `NameError` / `IndexError`) as `Option` / `Except`.
-/

namespace InputDeviceReader

/-- Channel ids of the four joystick axes (`joysticks = [0, 1, 3, 4]` in
`value_to_percentage`): Left X, Left Y, Right X, Right Y. -/
def joysticks : List Int := [0, 1, 3, 4]

/-- Channel ids of the two triggers (`triggers = [2, 5]`). -/
def triggers : List Int := [2, 5]

/-- Maximum raw value of a joystick axis on the reference controller. -/
def joystick_max : Int := 32767

/-- Maximum raw value of a trigger on the reference controller. -/
def trigger_max : Int := 1023

/-- Truncation toward zero of a rational number: floor for nonnegative
arguments, ceiling for negative ones.  This is the semantics of Python's
`int()` applied to a float. -/
def ratTrunc (q : ℚ) : ℤ := if 0 ≤ q then ⌊q⌋ else ⌈q⌉

/-- Embedding of `InputDeviceReader.value_to_percentage`.  The source
computes `int((key_value / joystick_max) * 100) * -1` on floats; for the
event-value range (32-bit integers) the float computation agrees exactly
with truncated rational division, embedded here as truncated integer
division `Int.tdiv (key_value * 100) joystick_max * -1` (and likewise for
triggers without the sign flip).  When `key_number` is in neither list the
local variable `percentage` is never assigned and the `return percentage`
raises `UnboundLocalError`: that fall-through is the `none` branch. -/
def value_to_percentage (key_number key_value : Int) : Option Int :=
  if key_number ∈ joysticks then
    some (Int.tdiv (key_value * 100) joystick_max * -1)
  else if key_number ∈ triggers then
    some (Int.tdiv (key_value * 100) trigger_max)
  else
    none

/-- Kind of an incoming evdev event: `key` is `EV_KEY` (buttons), `abs` is
`EV_ABS` (analog axes), `other` is any other event type (for example
`EV_SYN`), which matches neither `if` in the loop body of `read_events`. -/
inductive EventKind where
  | key : EventKind
  | abs : EventKind
  | other : EventKind
deriving DecidableEq, Repr

/-- An incoming event: its kind, its channel id (`scancode` for key events,
`event.code` for axis events) and its raw value (`keystate` for key events,
`event.value` for axis events). -/
structure InputEvent where
  kind : EventKind
  code : Int
  value : Int
deriving DecidableEq, Repr

/-- Python dict update `m[k] = v` on an insertion-ordered association
list: overwrite in place if the key is present, append otherwise. -/
def setKey (m : List (Int × Int)) (k v : Int) : List (Int × Int) :=
  match m with
  | [] => [(k, v)]
  | (k', v') :: rest =>
    if k' = k then (k, v) :: rest else (k', v') :: setKey rest k v

/-- Python dict lookup `m[k]` on an association list. -/
def getKey (m : List (Int × Int)) (k : Int) : Option Int :=
  match m with
  | [] => none
  | (k', v') :: rest => if k' = k then some v' else getKey rest k

/-- Python's `percentage or key_value`: `percentage` is used only when it is
truthy, so both `None` (button events) and the integer `0` fall back to the
raw `key_value`. -/
def pyOr (percentage : Option Int) (key_value : Int) : Int :=
  match percentage with
  | none => key_value
  | some p => if p = 0 then key_value else p

/-- State carried across iterations of the `read_events` loop:
`key_states` is the channel-state dict, and `locals` holds the
function-scoped Python locals `(key_number, key_value, percentage)`, which
survive from one iteration to the next (`none` before the first binding;
the inner `Option Int` is `percentage`, which is Python `None` after a key
event). -/
structure LoopState where
  key_states : List (Int × Int)
  locals : Option (Int × Int × Option Int)
deriving DecidableEq, Repr

/-- State at entry to `read_events`: `key_states` was initialized to
`{2: 0, 5: 0, 0: 0}` in `__init__`, and no loop locals are bound yet. -/
def initState : LoopState :=
  { key_states := [(2, 0), (5, 0), (0, 0)], locals := none }

/-- One iteration of the `read_events` loop body.  A key event binds the
locals with `percentage = None`; an axis event binds them through
`value_to_percentage` (whose fall-through `UnboundLocalError` aborts the
loop: `none`); any other event kind matches neither `if` and leaves the
locals from the previous iteration in scope (`UnboundLocalError` if there
was none).  The trailing statements then run unconditionally: the dict is
updated with `percentage or key_value` and the callback receives the whole
dict.  Returns the new state and the dict as seen by the callback. -/
def processEvent (s : LoopState) (e : InputEvent) :
    Option (LoopState × List (Int × Int)) :=
  let newLocals : Option (Int × Int × Option Int) :=
    match e.kind with
    | .key => some (e.code, e.value, none)
    | .abs =>
      match value_to_percentage e.code e.value with
      | some p => some (e.code, e.value, some p)
      | none => none
    | .other => s.locals
  match newLocals with
  | none => none
  | some (kn, kv, p) =>
    let m := setKey s.key_states kn (pyOr p kv)
    some ({ key_states := m, locals := some (kn, kv, p) }, m)

/-- Runs the `read_events` loop over a finite prefix of the event stream,
collecting the dict passed to the callback at each iteration.  `none`
models an uncaught exception escaping the loop. -/
def runEvents (s : LoopState) (evs : List InputEvent) :
    Option (LoopState × List (List (Int × Int))) :=
  match evs with
  | [] => some (s, [])
  | e :: rest =>
    match processEvent s e with
    | none => none
    | some (s', cb) =>
      match runEvents s' rest with
      | none => none
      | some (s'', cbs) => some (s'', cb :: cbs)

/-- An event within the hardware contract: a button event carrying an
evdev keystate (0 released, 1 pressed, 2 held), or an axis event on a
known channel whose raw value is within the declared hardware range. -/
def wellFormed (e : InputEvent) : Prop :=
  (e.kind = .key ∧ 0 ≤ e.value ∧ e.value ≤ 2) ∨
    (e.kind = .abs ∧
      ((e.code ∈ joysticks ∧ -32767 ≤ e.value ∧ e.value ≤ 32767) ∨
        (e.code ∈ triggers ∧ 0 ≤ e.value ∧ e.value ≤ 1023)))

instance (e : InputEvent) : Decidable (wellFormed e) := by
  unfold wellFormed
  infer_instance

/-- Range property of the channel-state mapping: every value stored under
a joystick channel lies in [-327, 327] and every value stored under a
trigger channel lies in [0, 100]. -/
def storedInRange (m : List (Int × Int)) : Prop :=
  ∀ kv ∈ m,
    (kv.1 ∈ joysticks → -327 ≤ kv.2 ∧ kv.2 ≤ 327) ∧
      (kv.1 ∈ triggers → 0 ≤ kv.2 ∧ kv.2 ≤ 100)

instance (m : List (Int × Int)) : Decidable (storedInRange m) := by
  unfold storedInRange
  infer_instance

/-- Claim C7 as written: some raw joystick value whose quotient truncates
to a nonzero magnitude has
`trunc(v / 32767 * 100) * -1 ≠ trunc((v / 32767 * 100) * -1)`. -/
def signFlipOrderMatters : Prop :=
  ∃ v : ℤ, ratTrunc ((v : ℚ) / 32767 * 100) ≠ 0 ∧
    ratTrunc ((v : ℚ) / 32767 * 100) * -1 ≠ ratTrunc ((v : ℚ) / 32767 * 100 * -1)

/-- Embedding of the device-selection logic of `InputDeviceReader.__init__`:
`available` abstracts the list of device paths that the OS enumeration
(`evdev.list_devices()`) would return.  With no explicit `device_path` the
code indexes `devices[0]`; an empty enumeration raises `IndexError`, which
is caught and re-raised as `Exception("No input devices found")` before
any device handle is assigned.  Otherwise the first enumerated device is
selected.  An explicit path is opened directly. -/
def selectDevice (device_path : Option String) (available : List String) :
    Except String String :=
  match device_path with
  | some p => Except.ok p
  | none =>
    match available with
    | [] => Except.error "No input devices found"
    | d :: _ => Except.ok d

end InputDeviceReader

namespace Rover

/-- One statement of a `Rover` command-method body: a Python assignment
`NAME = <dict literal>` binding a local to a JSON command object (fields
mapped to integer values), a Python variable annotation `NAME: <dict
literal>` — which binds nothing and whose annotation expression is not
even evaluated — or the call `self.send_json(NAME)`. -/
inductive Stmt where
  | assign (name : String) (value : List (String × Int)) : Stmt
  | annotate (name : String) : Stmt
  | sendJson (name : String) : Stmt
deriving DecidableEq, Repr

/-- Lookup of a local variable in the method's environment. -/
def lookupVar (env : List (String × List (String × Int))) (x : String) :
    Option (List (String × Int)) :=
  match env with
  | [] => none
  | (n, v) :: rest => if n = x then some v else lookupVar rest x

/-- Executes a method body over a locals environment, accumulating the
JSON objects written to the serial port by `send_json`.  Referencing an
unbound name aborts with that name and the writes performed so far — the
argument of `send_json` is evaluated at the call site, so the failing call
writes nothing. -/
def execBody (env : List (String × List (String × Int)))
    (writes : List (List (String × Int))) :
    List Stmt →
      Except (String × List (List (String × Int)))
        (List (String × List (String × Int)) × List (List (String × Int)))
  | [] => Except.ok (env, writes)
  | Stmt.assign n v :: rest => execBody ((n, v) :: env) writes rest
  | Stmt.annotate _ :: rest => execBody env writes rest
  | Stmt.sendJson n :: rest =>
    match lookupVar env n with
    | some v => execBody env (writes ++ [v]) rest
    | none => Except.error (n, writes)

/-- Body of `Rover.bus_servo_ctrl`: the command object is written as a
variable annotation (`BUS_SERVO_CTRL: {...}`), not an assignment, so the
name passed to `send_json` is never bound (the annotated dict literal is
not evaluated and therefore not recorded here). -/
def bus_servo_ctrl_body (_servo_id _position _speed _acceleration : Int) :
    List Stmt :=
  [Stmt.annotate "BUS_SERVO_CTRL", Stmt.sendJson "BUS_SERVO_CTRL"]

/-- Body of `Rover.bus_servo_scan`: annotation instead of assignment. -/
def bus_servo_scan_body (_number : Int) : List Stmt :=
  [Stmt.annotate "BUS_SERVO_SCAN", Stmt.sendJson "BUS_SERVO_SCAN"]

/-- Body of `Rover.bus_servo_info`: annotation instead of assignment. -/
def bus_servo_info_body (_servo_id : Int) : List Stmt :=
  [Stmt.annotate "BUS_SERVO_INFO", Stmt.sendJson "BUS_SERVO_INFO"]

/-- Body of `Rover.bus_servo_id_set`: annotation instead of assignment. -/
def bus_servo_id_set_body (_old_id _new_id : Int) : List Stmt :=
  [Stmt.annotate "BUS_SERVO_ID_SET", Stmt.sendJson "BUS_SERVO_ID_SET"]

/-- Body of `Rover.bus_servo_torque_lock`: annotation instead of
assignment. -/
def bus_servo_torque_lock_body (_servo_id _status : Int) : List Stmt :=
  [Stmt.annotate "BUS_SERVO_TORQUE_LOCK", Stmt.sendJson "BUS_SERVO_TORQUE_LOCK"]

/-- Body of `Rover.bus_servo_torque_limit`: annotation instead of
assignment. -/
def bus_servo_torque_limit_body (_servo_id _limit : Int) : List Stmt :=
  [Stmt.annotate "BUS_SERVO_TORQUE_LIMIT",
    Stmt.sendJson "BUS_SERVO_TORQUE_LIMIT"]

/-- Body of `Rover.bus_servo_mode`, for contrast: this method uses a real
assignment (`BUS_SERVO_MODE = {...}`), so its command is sent. -/
def bus_servo_mode_body (servo_id mode : Int) : List Stmt :=
  [Stmt.assign "BUS_SERVO_MODE" [("T", 57), ("id", servo_id), ("mode", mode)],
    Stmt.sendJson "BUS_SERVO_MODE"]

end Rover

namespace InputDeviceReader

theorem floor_intCast_div_pos (a d : ℤ) (hd : 0 < d) :
    ⌊(a : ℚ) / (d : ℚ)⌋ = a / d := by
  lift d to ℕ using hd.le
  exact_mod_cast Rat.floor_intCast_div_natCast a d

theorem ratTrunc_intCast_div (a d : ℤ) (hd : 0 < d) :
    ratTrunc ((a : ℚ) / (d : ℚ)) = a.tdiv d := by
  rcases le_or_lt 0 a with ha | ha
  · have hq : 0 ≤ (a : ℚ) / (d : ℚ) :=
      div_nonneg (by exact_mod_cast ha) (by positivity)
    rw [ratTrunc, if_pos hq, Int.tdiv_eq_ediv ha hd.le]
    exact floor_intCast_div_pos a d hd
  · have hdq : (0 : ℚ) < (d : ℚ) := by exact_mod_cast hd
    have hq : (a : ℚ) / (d : ℚ) < 0 :=
      div_neg_of_neg_of_pos (by exact_mod_cast ha) hdq
    rw [ratTrunc, if_neg (not_le.mpr hq)]
    have h1 : (a : ℚ) / (d : ℚ) = -(((-a : ℤ) : ℚ) / (d : ℚ)) := by
      push_cast
      ring
    rw [h1, Int.ceil_neg, floor_intCast_div_pos (-a) d hd,
      ← Int.tdiv_eq_ediv (by omega) hd.le, Int.neg_tdiv]
    exact neg_neg _

theorem ratTrunc_neg (q : ℚ) : ratTrunc (-q) = -(ratTrunc q) := by
  rcases lt_trichotomy q 0 with h | h | h
  · rw [ratTrunc, if_pos (by linarith), ratTrunc, if_neg (not_le.mpr h),
      Int.floor_neg]
  · rw [h]
    simp [ratTrunc]
  · rw [ratTrunc, if_neg (by simp; linarith), ratTrunc, if_pos h.le,
      Int.ceil_neg]

theorem getKey_setKey_self (m : List (Int × Int)) (k v : Int) :
    getKey (setKey m k v) k = some v := by
  induction m with
  | nil => simp [setKey, getKey]
  | cons kv' rest ih =>
    obtain ⟨k', v'⟩ := kv'
    by_cases hk : k' = k
    · simp [setKey, getKey, hk]
    · simp [setKey, getKey, hk, ih]

theorem setKey_getKey_self (m : List (Int × Int)) (k v : Int)
    (h : getKey m k = some v) : setKey m k v = m := by
  induction m with
  | nil => simp [getKey] at h
  | cons kv' rest ih =>
    obtain ⟨k', v'⟩ := kv'
    by_cases hk : k' = k
    · rw [getKey, if_pos hk] at h
      rw [setKey, if_pos hk]
      simp_all
    · rw [getKey, if_neg hk] at h
      rw [setKey, if_neg hk, ih h]

theorem setKey_forall {P : Int → Int → Prop} (m : List (Int × Int))
    (k w : Int) (hm : ∀ kv ∈ m, P kv.1 kv.2) (hw : P k w) :
    ∀ kv ∈ setKey m k w, P kv.1 kv.2 := by
  induction m with
  | nil =>
    intro kv hkv
    rw [setKey] at hkv
    rcases List.mem_singleton.mp hkv with h1
    rw [h1]
    exact hw
  | cons a rest ih =>
    obtain ⟨k', v'⟩ := a
    by_cases hk : k' = k
    · rw [setKey, if_pos hk]
      intro kv hkv
      rcases List.mem_cons.mp hkv with h1 | h1
      · rw [h1]
        exact hw
      · exact hm _ (List.mem_cons_of_mem _ h1)
    · rw [setKey, if_neg hk]
      intro kv hkv
      rcases List.mem_cons.mp hkv with h1 | h1
      · rw [h1]
        exact hm _ (List.mem_cons_self _ _)
      · exact ih (fun kv h => hm kv (List.mem_cons_of_mem _ h)) _ h1

theorem storedInRange_setKey (m : List (Int × Int)) (k w : Int)
    (hm : storedInRange m)
    (hw : (k ∈ joysticks → -327 ≤ w ∧ w ≤ 327) ∧
      (k ∈ triggers → 0 ≤ w ∧ w ≤ 100)) :
    storedInRange (setKey m k w) := by
  intro kv hkv
  exact setKey_forall (P := fun a b => (a ∈ joysticks → -327 ≤ b ∧ b ≤ 327) ∧
    (a ∈ triggers → 0 ≤ b ∧ b ≤ 100)) m k w (fun a ha => hm a ha) hw kv hkv

theorem processEvent_eq (s : LoopState) (e : InputEvent) (s' : LoopState)
    (cb : List (Int × Int)) (h : processEvent s e = some (s', cb)) :
    ∃ kn kv p, s' = { key_states := setKey s.key_states kn (pyOr p kv),
                      locals := some (kn, kv, p) } ∧
      cb = setKey s.key_states kn (pyOr p kv) := by
  rw [processEvent] at h
  rcases hnl : (match e.kind with
    | EventKind.key => some (e.code, e.value, none)
    | EventKind.abs =>
      match value_to_percentage e.code e.value with
      | some p => some (e.code, e.value, some p)
      | none => none
    | EventKind.other => s.locals) with _ | ⟨kn, kv, p⟩
  · rw [hnl] at h
    simp at h
  · rw [hnl] at h
    simp only [Option.some.injEq, Prod.mk.injEq] at h
    exact ⟨kn, kv, p, h.1.symm, h.2.symm⟩

theorem processEvent_key (s : LoopState) (e : InputEvent)
    (hk : e.kind = EventKind.key) :
    processEvent s e =
      some ({ key_states := setKey s.key_states e.code e.value,
              locals := some (e.code, e.value, none) },
            setKey s.key_states e.code e.value) := by
  simp [processEvent, hk, pyOr]

theorem processEvent_abs (s : LoopState) (e : InputEvent) (p : Int)
    (hk : e.kind = EventKind.abs)
    (hp : value_to_percentage e.code e.value = some p) :
    processEvent s e =
      some ({ key_states := setKey s.key_states e.code (pyOr (some p) e.value),
              locals := some (e.code, e.value, some p) },
            setKey s.key_states e.code (pyOr (some p) e.value)) := by
  simp [processEvent, hk, hp]

theorem runEvents_length : ∀ (evs : List InputEvent) (s s' : LoopState)
    (cbs : List (List (Int × Int))),
    runEvents s evs = some (s', cbs) → cbs.length = evs.length := by
  intro evs
  induction evs with
  | nil =>
    intro s s' cbs h
    rw [runEvents] at h
    simp only [Option.some.injEq, Prod.mk.injEq] at h
    rw [← h.2]
    rfl
  | cons e rest ih =>
    intro s s' cbs h
    rw [runEvents] at h
    split at h
    · simp at h
    · split at h
      · simp at h
      next s1 cb _ s2 cbs2 hr =>
        simp only [Option.some.injEq, Prod.mk.injEq] at h
        rw [← h.2, List.length_cons, ih _ _ _ hr, List.length_cons]

theorem joysticks_triggers_disjoint (k : Int) (hj : k ∈ joysticks)
    (ht : k ∈ triggers) : False := by
  fin_cases hj <;> simp_all [triggers]

theorem tdiv_nonneg_le (a d n : ℤ) (hd : 0 < d) (h0 : 0 ≤ a)
    (h2 : a ≤ n * d) : 0 ≤ a.tdiv d ∧ a.tdiv d ≤ n := by
  rw [Int.tdiv_eq_ediv h0 hd.le]
  refine ⟨Int.ediv_nonneg h0 hd.le, ?_⟩
  have h3 := Int.ediv_le_ediv hd h2
  rwa [Int.mul_ediv_cancel n hd.ne'] at h3

theorem tdiv_abs_bounds (a d n : ℤ) (hd : 0 < d) (hn : 0 ≤ n)
    (h1 : -(n * d) ≤ a) (h2 : a ≤ n * d) :
    -n ≤ a.tdiv d ∧ a.tdiv d ≤ n := by
  rcases le_or_lt 0 a with ha | ha
  · obtain ⟨l, r⟩ := tdiv_nonneg_le a d n hd ha h2
    exact ⟨by omega, r⟩
  · obtain ⟨l, r⟩ := tdiv_nonneg_le (-a) d n hd (by omega) (by omega)
    rw [Int.neg_tdiv] at l r
    exact ⟨by omega, by omega⟩

theorem lt_of_tdiv_eq_zero (a d : ℤ) (hd : 0 < d) (h0 : 0 ≤ a)
    (h : a.tdiv d = 0) : a < d := by
  rw [Int.tdiv_eq_ediv h0 hd.le] at h
  by_contra hc
  push_neg at hc
  have h1 := Int.ediv_le_ediv hd hc
  have h2 : (1 * d) / d = 1 := Int.mul_ediv_cancel 1 hd.ne'
  rw [one_mul] at h2
  omega

theorem abs_lt_of_tdiv_eq_zero (a d : ℤ) (hd : 0 < d)
    (h : a.tdiv d = 0) : -d < a ∧ a < d := by
  rcases le_or_lt 0 a with ha | ha
  · exact ⟨by omega, lt_of_tdiv_eq_zero a d hd ha h⟩
  · have h' : (-a).tdiv d = 0 := by
      rw [Int.neg_tdiv, h, neg_zero]
    have := lt_of_tdiv_eq_zero (-a) d hd (by omega) h'
    exact ⟨by omega, by omega⟩

theorem processEvent_preserves_range (s : LoopState) (e : InputEvent)
    (s' : LoopState) (cb : List (Int × Int)) (hwf : wellFormed e)
    (hm : storedInRange s.key_states)
    (h : processEvent s e = some (s', cb)) :
    storedInRange s'.key_states := by
  rcases hwf with ⟨hk, hv0, hv2⟩ | ⟨hk, hrange⟩
  · rw [processEvent_key s e hk] at h
    simp only [Option.some.injEq, Prod.mk.injEq] at h
    rw [← h.1]
    refine storedInRange_setKey s.key_states e.code e.value hm ?_
    exact ⟨fun _ => by omega, fun _ => by omega⟩
  · rcases hrange with ⟨hcj, hlo, hhi⟩ | ⟨hct, hlo, hhi⟩
    · have hp : value_to_percentage e.code e.value =
          some (Int.tdiv (e.value * 100) joystick_max * -1) := by
        rw [value_to_percentage, if_pos hcj]
      rw [processEvent_abs s e _ hk hp] at h
      simp only [Option.some.injEq, Prod.mk.injEq] at h
      rw [← h.1]
      refine storedInRange_setKey s.key_states e.code _ hm ?_
      refine ⟨fun _ => ?_, fun hmem => absurd hmem
        (fun hmem => joysticks_triggers_disjoint e.code hcj hmem)⟩
      rw [pyOr]
      split
      · next hz =>
        have hz' : Int.tdiv (e.value * 100) joystick_max = 0 := by omega
        have hb := abs_lt_of_tdiv_eq_zero (e.value * 100) joystick_max
          (by rw [joystick_max]; omega) hz'
        rw [joystick_max] at hb
        omega
      · have hb := tdiv_abs_bounds (e.value * 100) joystick_max 100
          (by rw [joystick_max]; omega) (by omega)
          (by rw [joystick_max]; omega) (by rw [joystick_max]; omega)
        omega
    · have hnj : e.code ∉ joysticks :=
        fun hmem => joysticks_triggers_disjoint e.code hmem hct
      have hp : value_to_percentage e.code e.value =
          some (Int.tdiv (e.value * 100) trigger_max) := by
        rw [value_to_percentage, if_neg hnj, if_pos hct]
      rw [processEvent_abs s e _ hk hp] at h
      simp only [Option.some.injEq, Prod.mk.injEq] at h
      rw [← h.1]
      refine storedInRange_setKey s.key_states e.code _ hm ?_
      refine ⟨fun hmem => absurd hmem hnj, fun _ => ?_⟩
      rw [pyOr]
      split
      · next hz =>
        have hb := lt_of_tdiv_eq_zero (e.value * 100) trigger_max
          (by rw [trigger_max]; omega) (by omega) hz
        rw [trigger_max] at hb
        omega
      · have hb := tdiv_nonneg_le (e.value * 100) trigger_max 100
          (by rw [trigger_max]; omega) (by omega)
          (by rw [trigger_max]; omega)
        omega

theorem runEvents_preserves_range : ∀ (evs : List InputEvent)
    (s s' : LoopState) (cbs : List (List (Int × Int))),
    (∀ e ∈ evs, wellFormed e) → storedInRange s.key_states →
    runEvents s evs = some (s', cbs) → storedInRange s'.key_states := by
  intro evs
  induction evs with
  | nil =>
    intro s s' cbs _ hs h
    rw [runEvents] at h
    simp only [Option.some.injEq, Prod.mk.injEq] at h
    rw [← h.1]
    exact hs
  | cons e rest ih =>
    intro s s' cbs hwf hs h
    rw [runEvents] at h
    split at h
    · simp at h
    · rename_i s1 cb hp
      split at h
      · simp at h
      · rename_i s2 cbs2 hr
        simp only [Option.some.injEq, Prod.mk.injEq] at h
        rw [← h.1]
        refine ih s1 s2 cbs2 (fun x hx => hwf x (List.mem_cons_of_mem _ hx))
          ?_ hr
        exact processEvent_preserves_range s e s1 cb
          (hwf e (List.mem_cons_self _ _)) hs hp

end InputDeviceReader

open InputDeviceReader

/-- C2: for every integer raw value `v` and every joystick channel
`c ∈ {0, 1, 3, 4}`, the axis normalizer returns `-trunc(v / 32767 * 100)`
where `trunc` truncates toward zero. -/
theorem claim_C2_joystick_formula (v c : Int) (hc : c ∈ joysticks) :
    value_to_percentage c v = some (-(ratTrunc ((v : ℚ) / 32767 * 100))) := by
  have hq : (v : ℚ) / 32767 * 100 = ((v * 100 : ℤ) : ℚ) / ((32767 : ℤ) : ℚ) := by
    push_cast
    ring
  rw [value_to_percentage, if_pos hc, hq,
    ratTrunc_intCast_div (v * 100) 32767 (by norm_num)]
  rw [mul_neg_one]
  rfl

/-- C2 witness: channel 0 is a joystick channel and the normalizer maps raw
value 16383 to -49, matching the claimed formula. -/
theorem claim_C2_joystick_formula_witness :
    (0 : Int) ∈ joysticks ∧
      value_to_percentage 0 16383 = some (-(ratTrunc ((16383 : ℚ) / 32767 * 100))) ∧
      value_to_percentage 0 16383 = some (-49) :=
  ⟨by decide, claim_C2_joystick_formula 16383 0 (by decide), by decide⟩

/-- C3: for every integer raw value `v` and every trigger channel
`c ∈ {2, 5}`, the axis normalizer returns `trunc(v / 1023 * 100)` where
`trunc` truncates toward zero. -/
theorem claim_C3_trigger_formula (v c : Int) (hc : c ∈ triggers) :
    value_to_percentage c v = some (ratTrunc ((v : ℚ) / 1023 * 100)) := by
  have hnj : c ∉ joysticks := by
    intro hj
    fin_cases hj <;> simp_all [triggers]
  have hq : (v : ℚ) / 1023 * 100 = ((v * 100 : ℤ) : ℚ) / ((1023 : ℤ) : ℚ) := by
    push_cast
    ring
  rw [value_to_percentage, if_neg hnj, if_pos hc, hq,
    ratTrunc_intCast_div (v * 100) 1023 (by norm_num)]
  rfl

/-- C3 witness: channel 2 is a trigger channel and the normalizer maps raw
value 511 to 49, matching the claimed formula. -/
theorem claim_C3_trigger_formula_witness :
    (2 : Int) ∈ triggers ∧
      value_to_percentage 2 511 = some (ratTrunc ((511 : ℚ) / 1023 * 100)) ∧
      value_to_percentage 2 511 = some (49) :=
  ⟨by decide, claim_C3_trigger_formula 511 2 (by decide), by decide⟩

/-- C1 fails on the code: for the axis event on joystick channel 0 with raw
value 100 the Axis Normalizer computes percentage 0, but the loop body
stores `percentage or key_value`, and Python's `or` treats the integer 0 as
falsy, so the raw value 100 — not the percentage 0 — ends up in the
channel-state dict, contradicting the code's own comment that only a `None`
percentage falls back to the raw value. -/
theorem claim_C1_percentage_zero_divergence :
    value_to_percentage 0 100 = some 0 ∧
      processEvent initState ⟨.abs, 0, 100⟩ =
        some ({ key_states := [(2, 0), (5, 0), (0, 100)],
                locals := some (0, 100, some 0) },
              [(2, 0), (5, 0), (0, 100)]) ∧
      getKey [(2, 0), (5, 0), (0, 100)] 0 = some 100 := by
  decide

/-- C4 fails on the code: raw values outside the declared hardware range
are accepted as-is, so the single axis event `(abs, 0, 40000)` stores
-122 under joystick channel 0, outside [-100, 100]. -/
theorem claim_C4_counterexample :
    runEvents initState [⟨.abs, 0, 40000⟩] =
      some ({ key_states := [(2, 0), (5, 0), (0, -122)],
              locals := some (0, 40000, some (-122)) },
            [[(2, 0), (5, 0), (0, -122)]]) ∧
      getKey [(2, 0), (5, 0), (0, -122)] 0 = some (-122) ∧
      (0 : Int) ∈ joysticks ∧
      ¬(-100 ≤ (-122 : Int) ∧ (-122 : Int) ≤ 100) := by
  decide

/-- C4 amended: for event sequences within the hardware contract (button
events carrying keystates 0..2, axis events on known channels with raw
values within the declared ranges), every reachable channel-state mapping
stores under each joystick channel a value in [-327, 327] — the percentage,
which lies in [-100, 100], whenever it is nonzero, and otherwise the raw
value itself, whose magnitude is at most 327, because `percentage or
key_value` treats the percentage 0 as falsy — and under each trigger
channel a value in [0, 100]. -/
theorem claim_C4_amended (evs : List InputEvent) (s : LoopState)
    (cbs : List (List (Int × Int))) (hwf : ∀ e ∈ evs, wellFormed e)
    (h : runEvents initState evs = some (s, cbs)) :
    storedInRange s.key_states :=
  runEvents_preserves_range evs initState s cbs hwf (by decide) h

/-- C4 amended witness: after the in-range trigger event `(abs, 2, 1023)`
the reached mapping satisfies the amended range invariant. -/
theorem claim_C4_amended_witness :
    storedInRange [(2, 100), (5, 0), (0, 0)] :=
  claim_C4_amended [⟨.abs, 2, 1023⟩]
    { key_states := [(2, 100), (5, 0), (0, 0)],
      locals := some (2, 1023, some 100) }
    [[(2, 100), (5, 0), (0, 0)]] (by decide) (by decide)

/-- C5: every processed event invokes the consumer callback exactly once
with the entire current channel-state mapping; in particular the scenario
starting at `{2:0, 5:0, 0:0}` and feeding `(abs, 2, 1023)` then
`(abs, 0, -16383)` produces the callback mappings `{2:100, 5:0, 0:0}` and
then `{2:100, 5:0, 0:49}`. -/
theorem claim_C5_callback_per_event (evs : List InputEvent) (s : LoopState)
    (cbs : List (List (Int × Int)))
    (h : runEvents initState evs = some (s, cbs)) :
    cbs.length = evs.length ∧
      (evs = [⟨.abs, 2, 1023⟩, ⟨.abs, 0, -16383⟩] →
        cbs = [[(2, 100), (5, 0), (0, 0)], [(2, 100), (5, 0), (0, 49)]]) := by
  refine ⟨runEvents_length evs initState s cbs h, ?_⟩
  rintro rfl
  have hrun : runEvents initState [⟨.abs, 2, 1023⟩, ⟨.abs, 0, -16383⟩] =
      some ({ key_states := [(2, 100), (5, 0), (0, 49)],
              locals := some (0, -16383, some 49) },
            [[(2, 100), (5, 0), (0, 0)], [(2, 100), (5, 0), (0, 49)]]) := by
    decide
  rw [hrun] at h
  simp only [Option.some.injEq, Prod.mk.injEq] at h
  rw [← h.2]

/-- C5 witness: the end-to-end scenario instantiated concretely — two
events produce exactly two callback invocations, with the claimed
cumulative mappings. -/
theorem claim_C5_callback_per_event_witness :
    ([[(2, 100), (5, 0), (0, 0)], [(2, 100), (5, 0), (0, 49)]] :
        List (List (Int × Int))).length =
      ([⟨.abs, 2, 1023⟩, ⟨.abs, 0, -16383⟩] : List InputEvent).length ∧
      (([⟨.abs, 2, 1023⟩, ⟨.abs, 0, -16383⟩] : List InputEvent) =
          [⟨.abs, 2, 1023⟩, ⟨.abs, 0, -16383⟩] →
        ([[(2, 100), (5, 0), (0, 0)], [(2, 100), (5, 0), (0, 49)]] :
            List (List (Int × Int))) =
          [[(2, 100), (5, 0), (0, 0)], [(2, 100), (5, 0), (0, 49)]]) :=
  claim_C5_callback_per_event [⟨.abs, 2, 1023⟩, ⟨.abs, 0, -16383⟩]
    { key_states := [(2, 100), (5, 0), (0, 49)],
      locals := some (0, -16383, some 49) }
    [[(2, 100), (5, 0), (0, 0)], [(2, 100), (5, 0), (0, 49)]] (by decide)

/-- C6 fails on the code: the update and callback statements sit at the
bottom of the loop body, outside both `if` branches, so an event of any
other kind is not ignored — after an axis event, a subsequent other-kind
event still invokes the callback (two invocations for the two-event stream
below, where the claim predicts one), and an other-kind event arriving
first dereferences the never-bound loop locals and raises
`UnboundLocalError` instead of being skipped. -/
theorem claim_C6_counterexample :
    processEvent initState ⟨.other, 0, 0⟩ = none ∧
      runEvents initState [⟨.abs, 0, 16383⟩, ⟨.other, 99, 7⟩] =
        some ({ key_states := [(2, 0), (5, 0), (0, -49)],
                locals := some (0, 16383, some (-49)) },
              [[(2, 0), (5, 0), (0, -49)], [(2, 0), (5, 0), (0, -49)]]) ∧
      ([[(2, 0), (5, 0), (0, -49)], [(2, 0), (5, 0), (0, -49)]] :
          List (List (Int × Int))).length ≠ 1 := by
  decide

/-- C6 amended: an event whose kind is neither button nor absolute-axis is
not silently ignored — if it follows any successfully processed event it
re-runs the previous event's state write (leaving the mapping unchanged,
since the same value is written to the same key) and invokes the consumer
callback once more with that unchanged mapping; if it is the first event
processed, the loop instead fails with an unbound-name error. -/
theorem claim_C6_amended (s s' : LoopState) (ev e : InputEvent)
    (cb : List (Int × Int)) (h : processEvent s ev = some (s', cb))
    (hk : e.kind = .other) :
    processEvent s' e = some (s', s'.key_states) := by
  obtain ⟨kn, kv, p, hs, -⟩ := processEvent_eq s ev s' cb h
  subst hs
  have hget : getKey (setKey s.key_states kn (pyOr p kv)) kn =
      some (pyOr p kv) := getKey_setKey_self _ _ _
  have hset := setKey_getKey_self _ _ _ hget
  simp [processEvent, hk, hset]

/-- C6 amended witness: after the axis event `(abs, 0, 16383)` the
other-kind event `(other, 99, 7)` leaves the state unchanged but still
produces one more callback invocation with the unchanged mapping. -/
theorem claim_C6_amended_witness :
    processEvent { key_states := [(2, 0), (5, 0), (0, -49)],
                   locals := some (0, 16383, some (-49)) }
        ⟨.other, 99, 7⟩ =
      some ({ key_states := [(2, 0), (5, 0), (0, -49)],
              locals := some (0, 16383, some (-49)) },
            [(2, 0), (5, 0), (0, -49)]) :=
  claim_C6_amended initState
    { key_states := [(2, 0), (5, 0), (0, -49)],
      locals := some (0, 16383, some (-49)) }
    ⟨.abs, 0, 16383⟩ ⟨.other, 99, 7⟩ [(2, 0), (5, 0), (0, -49)]
    (by decide) rfl

/-- C7 fails as stated: truncation toward zero commutes with negation, so
no raw value — whatever its truncated magnitude — makes flipping the sign
after truncation differ from flipping it before. -/
theorem claim_C7_counterexample : ¬ signFlipOrderMatters := by
  rintro ⟨v, -, hne⟩
  apply hne
  rw [show (v : ℚ) / 32767 * 100 * -1 = -((v : ℚ) / 32767 * 100) by ring,
    ratTrunc_neg]
  ring

/-- C7 amended: for every integer raw value and joystick channel, flipping
the sign before truncation toward zero yields exactly the value the
normalizer computes by flipping after truncation — the two orders never
differ (they would differ only under floor, not truncation toward zero). -/
theorem claim_C7_amended (v c : Int) (hc : c ∈ joysticks) :
    value_to_percentage c v = some (ratTrunc ((v : ℚ) / 32767 * 100 * -1)) := by
  have hq : (v : ℚ) / 32767 * 100 = ((v * 100 : ℤ) : ℚ) / ((32767 : ℤ) : ℚ) := by
    push_cast
    ring
  rw [show (v : ℚ) / 32767 * 100 * -1 = -((v : ℚ) / 32767 * 100) by ring,
    ratTrunc_neg, hq, ratTrunc_intCast_div (v * 100) 32767 (by norm_num),
    value_to_percentage, if_pos hc, mul_neg_one]
  rfl

/-- C7 amended witness: at raw value 16383 on channel 0 both orders give
-49. -/
theorem claim_C7_amended_witness :
    (0 : Int) ∈ joysticks ∧
      value_to_percentage 0 16383 =
        some (ratTrunc ((16383 : ℚ) / 32767 * 100 * -1)) ∧
      value_to_percentage 0 16383 = some (-49) :=
  ⟨by decide, claim_C7_amended 16383 0 (by decide), by decide⟩

/-- C8: for every channel id belonging to neither the joystick set
`{0, 1, 3, 4}` nor the trigger set `{2, 5}`, and every raw value, the Axis
Normalizer takes neither conversion branch and produces no numeric result:
the `percentage` variable is left unset and the call falls through to the
error branch of the total embedding. -/
theorem claim_C8_unclassified_channel (c v : Int)
    (hj : c ∉ joysticks) (ht : c ∉ triggers) :
    value_to_percentage c v = none := by
  rw [value_to_percentage, if_neg hj, if_neg ht]

/-- C8 witness: channel 7 is in neither fixed set and the normalizer
produces no result for it. -/
theorem claim_C8_unclassified_channel_witness :
    (7 : Int) ∉ joysticks ∧ (7 : Int) ∉ triggers ∧
      value_to_percentage 7 123 = none :=
  ⟨by decide, by decide,
    claim_C8_unclassified_channel 7 123 (by decide) (by decide)⟩

/-- C9: with no explicit device identifier, an empty device enumeration
makes reader construction fail with the "No input devices found" error
before any device handle is opened, and a non-empty enumeration selects
its first device. -/
theorem claim_C9_device_selection (available : List String) :
    (available = [] →
      selectDevice none available = Except.error "No input devices found") ∧
      ∀ d rest, available = d :: rest →
        selectDevice none available = Except.ok d := by
  constructor
  · rintro rfl
    rfl
  · rintro d rest rfl
    rfl

/-- C9 witness: the empty enumeration fails with the error, and a
two-device enumeration selects the first device. -/
theorem claim_C9_device_selection_witness :
    selectDevice none [] = Except.error "No input devices found" ∧
      selectDevice none ["/dev/input/event0", "/dev/input/event1"] =
        Except.ok "/dev/input/event0" :=
  ⟨(claim_C9_device_selection []).1 rfl,
    (claim_C9_device_selection ["/dev/input/event0", "/dev/input/event1"]).2
      "/dev/input/event0" ["/dev/input/event1"] rfl⟩

/-- C10: each of the six bus-servo commands whose command object is written
as a Python variable annotation instead of an assignment fails with an
unbound-name error when `send_json` evaluates the never-bound name, before
any bytes are written to the serial port. -/
theorem claim_C10_bus_servo_unbound (servo_id position speed acceleration
    number old_id new_id status limit : Int) :
    Rover.execBody [] [] (Rover.bus_servo_ctrl_body servo_id position speed
        acceleration) = Except.error ("BUS_SERVO_CTRL", []) ∧
      Rover.execBody [] [] (Rover.bus_servo_scan_body number) =
        Except.error ("BUS_SERVO_SCAN", []) ∧
      Rover.execBody [] [] (Rover.bus_servo_info_body servo_id) =
        Except.error ("BUS_SERVO_INFO", []) ∧
      Rover.execBody [] [] (Rover.bus_servo_id_set_body old_id new_id) =
        Except.error ("BUS_SERVO_ID_SET", []) ∧
      Rover.execBody [] [] (Rover.bus_servo_torque_lock_body servo_id status) =
        Except.error ("BUS_SERVO_TORQUE_LOCK", []) ∧
      Rover.execBody [] [] (Rover.bus_servo_torque_limit_body servo_id limit) =
        Except.error ("BUS_SERVO_TORQUE_LIMIT", []) :=
  ⟨rfl, rfl, rfl, rfl, rfl, rfl⟩
